import Mathlib

/-!
Verification development for the Universal Web Scraper repository.

The Python sources (src/scraper/static_scraper.py, src/scraper/js_scraper.py,
src/scraper/models.py, src/main.py) are shallowly embedded below.  Python
strings are modelled as `List Char`; the external collaborators (the HTTP
transport, the selectolax HTML parser and the Playwright browser) are
modelled at their interface boundary: a parsed element is represented by
the query results the extraction code reads from it, and browser actions
are represented by their outcomes.
-/

namespace Scraper

/-- Python strings are modelled as lists of characters. -/
abbrev Str := List Char

/-- External URL helpers from urllib.parse: `urljoin base rel` and the
scheme of a parsed URL (`urlparse(base).scheme`). -/
structure UrlEnv where
  urljoin : Str → Str → Str
  scheme : Str → Str

/-- models.py LinkItem. -/
structure LinkItem where
  text : Str
  href : Str
  deriving DecidableEq

/-- models.py ImageItem. -/
structure ImageItem where
  src : Str
  alt : Str
  deriving DecidableEq

/-- models.py SectionContent. -/
structure SectionContent where
  headings : List Str
  text : Str
  links : List LinkItem
  images : List ImageItem
  lists : List (List Str)
  tables : List (List (List Str))
  deriving DecidableEq

/-- models.py Section. -/
structure Section where
  id : Str
  type : Str
  label : Str
  sourceUrl : Str
  content : SectionContent
  rawHtml : Str
  truncated : Bool
  deriving DecidableEq

/-- models.py MetaData; all fields default to the empty string. -/
structure MetaData where
  title : Str := []
  description : Str := []
  language : Str := []
  canonical : Str := []
  deriving DecidableEq

/-- models.py Interactions. -/
structure Interactions where
  clicks : List Str
  scrolls : Nat
  pages : List Str
  deriving DecidableEq

/-- models.py ErrorItem. -/
structure ErrorItem where
  message : Str
  phase : Str
  deriving DecidableEq

/-- The `MetaData()` pydantic constructor with all defaults. -/
def emptyMetaData : MetaData := {}

/-- An `a[href]` descendant of an element: its href attribute and its
trimmed text, as read by extract_section_content. -/
structure Anchor where
  href : Str
  text : Str
  deriving DecidableEq

/-- An `img[src]` descendant: src and alt attributes. -/
structure ImgNode where
  src : Str
  alt : Str
  deriving DecidableEq

/-- A parsed element, represented by the query results the scraper reads
from it through the selectolax interface: attributes, trimmed texts of
heading / paragraph descendants, the element's own trimmed text, anchor and
image descendants, list and table contents, and its serialized markup
(`element.html or ""`). Absent attributes are the empty string, matching
`attributes.get(name, '')`. -/
structure Element where
  tag : Str
  classAttr : Str
  idAttr : Str
  ariaLabel : Str
  hTexts : List Str
  pTexts : List Str
  fullText : Str
  anchors : List Anchor
  imgs : List ImgNode
  listGroups : List (List Str)
  tableNodes : List (List (List Str))
  html : Str
  deriving DecidableEq

/-- A parsed document after remove_noise, represented by the query results
used downstream: the landmark elements matching each selector of
SECTION_SELECTORS in document order, the body element, and the head-level
metadata values. -/
structure Tree where
  headerEls : List Element
  navEls : List Element
  mainEls : List Element
  sectionEls : List Element
  articleEls : List Element
  asideEls : List Element
  footerEls : List Element
  body : Option Element
  titleText : Option Str
  ogTitle : Option Str
  descContent : Option Str
  langAttr : Option Str
  canonicalHref : Option Str
  deriving DecidableEq

/-- static_scraper.make_absolute_url. -/
def make_absolute_url (env : UrlEnv) (href : Str) (base_url : Str) : Str :=
  if href = [] then []
  else if ("http://".toList.isPrefixOf href || "https://".toList.isPrefixOf href
      || "//".toList.isPrefixOf href) then
    if "//".toList.isPrefixOf href then env.scheme base_url ++ [':'] ++ href
    else href
  else env.urljoin base_url href

/-- The href filter of extract_section_content:
`href.startswith(('#', 'javascript:', 'mailto:', 'tel:'))`. -/
def badHrefStart (href : Str) : Bool :=
  "#".toList.isPrefixOf href || "javascript:".toList.isPrefixOf href
    || "mailto:".toList.isPrefixOf href || "tel:".toList.isPrefixOf href

/-- Python `" ".join(parts)`. -/
def joinSpace (parts : List Str) : Str := List.intercalate [' '] parts

/-- static_scraper.extract_section_content. -/
def extract_section_content (env : UrlEnv) (element : Element) (base_url : Str) :
    SectionContent :=
  let headings := element.hTexts.filter (fun t => t ≠ [])
  let text_parts := element.pTexts.filter (fun t => t ≠ [])
  let text_parts :=
    if text_parts = [] then
      if element.fullText ≠ [] then [element.fullText.take 500] else []
    else text_parts
  let links := element.anchors.filterMap (fun a =>
    if a.href ≠ [] ∧ badHrefStart a.href = false then
      some { text := if a.text = [] then a.href else a.text,
             href := make_absolute_url env a.href base_url }
    else none)
  let images := element.imgs.filterMap (fun im =>
    if im.src ≠ [] then
      some { src := make_absolute_url env im.src base_url, alt := im.alt }
    else none)
  let lists := element.listGroups.filterMap (fun g =>
    let items := g.filter (fun t => t ≠ [])
    if items = [] then none else some items)
  let tables := element.tableNodes.filterMap (fun t =>
    let table_data := t.filter (fun row => row ≠ [])
    if table_data = [] then none else some table_data)
  { headings := headings, text := joinSpace text_parts, links := links.take 50,
    images := images.take 20, lists := lists.take 10, tables := tables.take 5 }

/-- static_scraper.SECTION_TYPE_MAP. -/
def SECTION_TYPE_MAP : List (Str × Str) :=
  [("header".toList, "hero".toList), ("nav".toList, "nav".toList),
   ("footer".toList, "footer".toList), ("main".toList, "section".toList),
   ("section".toList, "section".toList), ("article".toList, "section".toList),
   ("aside".toList, "section".toList)]

/-- Python `s.lower()` at the character level. -/
def lowerStr (s : Str) : Str := s.map Char.toLower

/-- The keyword groups scanned by determine_section_type, in source order. -/
def heroKeywords : List Str :=
  ["hero".toList, "banner".toList, "jumbotron".toList, "splash".toList]

def navKeywords : List Str :=
  ["nav".toList, "menu".toList, "navigation".toList]

def footerKeywords : List Str :=
  ["footer".toList, "foot".toList]

def faqKeywords : List Str :=
  ["faq".toList, "accordion".toList, "question".toList]

def pricingKeywords : List Str :=
  ["price".toList, "pricing".toList, "plan".toList]

def gridKeywords : List Str :=
  ["grid".toList, "cards".toList, "gallery".toList]

def listKeywords : List Str :=
  ["list".toList, "items".toList]

/-- Python `x in s` on strings: x occurs as a contiguous substring of s. -/
def isSubstring (x : Str) : Str → Bool
  | [] => x.isEmpty
  | c :: rest => x.isPrefixOf (c :: rest) || isSubstring x rest

/-- Python `any(x in combined for x in kws)`. -/
def containsAny (combined : Str) (kws : List Str) : Bool :=
  kws.any (fun x => isSubstring x combined)

/-- The string `classes + " " + element_id` built by determine_section_type,
with both attributes lowercased. -/
def combinedAttrs (element : Element) : Str :=
  lowerStr element.classAttr ++ [' '] ++ lowerStr element.idAttr

/-- static_scraper.determine_section_type. -/
def determine_section_type (element : Element) (content : SectionContent) : Str :=
  let tag_name := lowerStr element.tag
  let base_type := (SECTION_TYPE_MAP.lookup tag_name).getD ("unknown".toList)
  let combined := combinedAttrs element
  if containsAny combined heroKeywords then "hero".toList
  else if containsAny combined navKeywords then "nav".toList
  else if containsAny combined footerKeywords then "footer".toList
  else if containsAny combined faqKeywords then "faq".toList
  else if containsAny combined pricingKeywords then "pricing".toList
  else if containsAny combined gridKeywords then "grid".toList
  else if containsAny combined listKeywords then "list".toList
  else base_type

/-- Python `str.capitalize()`: first character uppercased, rest lowercased. -/
def capitalizeStr : Str → Str
  | [] => []
  | c :: cs => Char.toUpper c :: cs.map Char.toLower

/-- Helper for Python `s.split()`: split on spaces, keeping empty runs. -/
def splitOnSpace : Str → List Str
  | [] => [[]]
  | c :: rest =>
    match splitOnSpace rest with
    | [] => if c = ' ' then [[], []] else [[c]]
    | w :: ws => if c = ' ' then [] :: w :: ws else (c :: w) :: ws

/-- Python `s.split()` (whitespace modelled as the space character). -/
def pySplit (s : Str) : List Str := (splitOnSpace s).filter (fun w => w ≠ [])

/-- static_scraper.generate_label. -/
def generate_label (element : Element) (content : SectionContent) : Str :=
  match content.headings with
  | h :: _ => h.take 50
  | [] =>
    if element.ariaLabel ≠ [] then element.ariaLabel.take 50
    else if content.text ≠ [] then joinSpace ((pySplit content.text).take 7)
    else
      let tag := if element.tag ≠ [] then element.tag else "Section".toList
      capitalizeStr tag ++ " Section".toList

/-- The elements matched by SECTION_SELECTORS, concatenated in selector
order, each selector's matches in document order — the iteration order of
the extract_sections double loop. -/
def landmarkElements (tree : Tree) : List Element :=
  tree.headerEls ++ tree.navEls ++ tree.mainEls ++ tree.sectionEls
    ++ tree.articleEls ++ tree.asideEls ++ tree.footerEls

/-- Python `str(n)` for a natural number. -/
def natToStr (n : Nat) : Str := (Nat.repr n).toList

/-- The primary landmark scan of static_scraper.extract_sections: the loop
body over the landmark elements, carrying the per-type `section_counts`
dictionary (modelled as a function with default 0). -/
def scanSections (env : UrlEnv) (url : Str) (section_counts : Str → Nat) :
    List Element → List Section
  | [] => []
  | element :: rest =>
    let content := extract_section_content env element url
    if content.text = [] ∧ content.headings = [] ∧ content.links = [] then
      scanSections env url section_counts rest
    else
      let section_type := determine_section_type element content
      let label := generate_label element content
      let n := section_counts section_type
      let section_id := section_type ++ ('-' :: natToStr n)
      let raw_html0 := element.html
      let truncated := decide (1000 < raw_html0.length)
      let raw_html :=
        if 1000 < raw_html0.length then raw_html0.take 1000 ++ ("...".toList)
        else raw_html0
      { id := section_id, type := section_type, label := label, sourceUrl := url,
        content := content, rawHtml := raw_html, truncated := truncated }
        :: scanSections env url
             (fun t => if t = section_type then n + 1 else section_counts t) rest

/-- static_scraper.extract_sections: the primary landmark scan, falling back
to a single body section when the scan yields nothing. -/
def extract_sections (env : UrlEnv) (tree : Tree) (url : Str) : List Section :=
  let sections := scanSections env url (fun _ => 0) (landmarkElements tree)
  if sections = [] then
    match tree.body with
    | some body =>
      let content := extract_section_content env body url
      let raw_html0 := body.html
      let truncated := decide (1000 < raw_html0.length)
      let raw_html :=
        if 1000 < raw_html0.length then raw_html0.take 1000 ++ ("...".toList)
        else raw_html0
      [{ id := "body-0".toList, type := "unknown".toList,
         label := generate_label body content, sourceUrl := url,
         content := content, rawHtml := raw_html, truncated := truncated }]
    | none => []
  else sections

/-- static_scraper.get_text_content_length: length of the body's trimmed
text. -/
def get_text_content_length (tree : Tree) : Nat :=
  match tree.body with
  | some body => body.fullText.length
  | none => 0

/-- static_scraper.extract_metadata. -/
def extract_metadata (env : UrlEnv) (tree : Tree) (url : Str) : MetaData :=
  let title := (tree.titleText).getD []
  let title :=
    match tree.ogTitle with
    | some c => if c ≠ [] then c else title
    | none => title
  let description := (tree.descContent).getD []
  let language := (tree.langAttr).getD []
  let canonical := (tree.canonicalHref).getD []
  let canonical := if canonical ≠ [] then env.urljoin url canonical else canonical
  { title := title, description := description, language := language,
    canonical := canonical }

/-- Outcome of the httpx fetch in static_scrape: the body text on success,
or one of the three classified failures. -/
inductive FetchResult where
  | success (body : Str)
  | timeout
  | statusError (code : Nat)
  | otherError (msg : Str)
  deriving DecidableEq

/-- Whether the fetch failed (any of the three except branches). -/
def fetchFailed : FetchResult → Bool
  | .success _ => false
  | _ => true

/-- The 5-tuple returned by static_scrape. -/
structure StaticResult where
  metadata : MetaData
  sections : List Section
  errors : List ErrorItem
  htmlContent : Str
  needsJs : Bool
  deriving DecidableEq

/-- static_scraper.static_scrape.  `parseDoc` models
`HTMLParser(html)` followed by `remove_noise` — the try block's parsing
step — returning the settled tree or the exception's string. -/
def static_scrape (env : UrlEnv) (parseDoc : Str → Except Str Tree) (url : Str) :
    FetchResult → StaticResult
  | .timeout =>
    ⟨emptyMetaData, [], [⟨"Request timeout".toList, "fetch".toList⟩], [], true⟩
  | .statusError code =>
    ⟨emptyMetaData, [], [⟨"HTTP ".toList ++ natToStr code, "fetch".toList⟩], [], true⟩
  | .otherError msg =>
    ⟨emptyMetaData, [], [⟨msg, "fetch".toList⟩], [], true⟩
  | .success html_content =>
    match parseDoc html_content with
    | .error e => ⟨emptyMetaData, [], [⟨e, "parse".toList⟩], html_content, true⟩
    | .ok tree =>
      let text_length := get_text_content_length tree
      let needs_js := decide (text_length < 500)
      let metadata := extract_metadata env tree url
      let sections := extract_sections env tree url
      let needs_js := needs_js || sections.isEmpty
        || sections.all (fun s => s.content.text.isEmpty)
      ⟨metadata, sections, [], html_content, needs_js⟩

/-- main.py line 54: the render pass runs iff `needs_js or not sections`. -/
def renderAttempted (needs_js : Bool) (sections : List Section) : Bool :=
  needs_js || sections.isEmpty

/-- js_scraper error message builders, each truncating the exception text
to its first 50 characters. -/
def tabClickErrorMessage (e : Str) : Str := "Tab click error: ".toList ++ e.take 50

def loadMoreErrorMessage (e : Str) : Str := "Load more error: ".toList ++ e.take 50

def scrollErrorMessage (e : Str) : Str := "Scroll error: ".toList ++ e.take 50

def navigationFailedMessage (e : Str) : Str :=
  "Navigation failed: ".toList ++ e.take 50

def jsParseErrorMessage (e : Str) : Str := "Parse error: ".toList ++ e.take 50

def browserErrorMessage (e : Str) : Str := "Browser error: ".toList ++ e.take 50

/-- Outcomes of one js_scrape browser session: launch and per-call
navigation results, the clicks / errors / scroll count / extra pages
produced by the interaction stages (click_tabs, click_load_more,
perform_scrolls, follow_pagination — all driven by the external browser),
and the parse of the settled page content. -/
structure BrowserRun where
  launch : Except Str Unit
  navigate : Str → Nat → Except Str Unit
  tabClicks : List Str
  tabErrors : List Str
  loadMoreClicks : List Str
  loadMoreErrors : List Str
  scrollCount : Nat
  scrollErrors : List Str
  pagesVisited : List Str
  parseRendered : Except Str Tree

/-- The inner replacement loop of the js_scrape merge: find the first
existing section with the same id and replace it iff the incoming section's
text is strictly longer. -/
def replaceFirst (sections : List Section) (sec : Section) : List Section :=
  match sections with
  | [] => []
  | existing :: rest =>
    if existing.id = sec.id then
      (if existing.content.text.length < sec.content.text.length then sec
       else existing) :: rest
    else existing :: replaceFirst rest sec

/-- One iteration of the js_scrape merge loop over a rendered section. -/
def mergeStep (existing_ids : List Str) (sections : List Section) (sec : Section) :
    List Section :=
  if sec.id ∉ existing_ids then sections ++ [sec]
  else replaceFirst sections sec

/-- The js_scrape merge (lines 175-185): `existing_ids` is computed once
from the static sections, then each rendered section is appended or merged
in order. -/
def mergeSections (sections : List Section) (js_sections : List Section) :
    List Section :=
  let existing_ids := sections.map Section.id
  js_sections.foldl (mergeStep existing_ids) sections

/-- The interaction stages' effect on the interactions log: click_tabs and
click_load_more append the used selectors, perform_scrolls counts scrolls,
follow_pagination appends newly visited page URLs. -/
def applyInteractions (interactions : Interactions) (run : BrowserRun) :
    Interactions :=
  { interactions with
    clicks := interactions.clicks ++ run.tabClicks ++ run.loadMoreClicks,
    scrolls := interactions.scrolls + run.scrollCount,
    pages := interactions.pages ++ run.pagesVisited }

/-- The interaction-phase errors accumulated by the three clicking and
scrolling stages, in stage order. -/
def interactionErrors (run : BrowserRun) : List ErrorItem :=
  run.tabErrors.map (fun e => ⟨tabClickErrorMessage e, "interaction".toList⟩)
    ++ run.loadMoreErrors.map (fun e => ⟨loadMoreErrorMessage e, "interaction".toList⟩)
    ++ run.scrollErrors.map (fun e => ⟨scrollErrorMessage e, "interaction".toList⟩)

/-- The body of js_scrape after a successful navigation: run the
interaction stages, parse the settled content, optionally refresh the
metadata, and merge the rendered sections into the existing ones. -/
def jsAfterNav (env : UrlEnv) (url : Str) (existing_metadata : Option MetaData)
    (metadata : MetaData) (sections : List Section) (interactions : Interactions)
    (run : BrowserRun) : MetaData × List Section × List ErrorItem × Interactions :=
  let interactions := applyInteractions interactions run
  let errors := interactionErrors run
  match run.parseRendered with
  | .error e =>
    (metadata, sections, errors ++ [⟨jsParseErrorMessage e, "parse".toList⟩],
     interactions)
  | .ok tree =>
    let metadata :=
      if existing_metadata = none ∨ (existing_metadata.getD emptyMetaData).title = []
      then extract_metadata env tree url else metadata
    let js_sections := extract_sections env tree url
    let sections :=
      if js_sections ≠ [] then mergeSections sections js_sections else sections
    (metadata, sections, errors, interactions)

/-- js_scraper.js_scrape.  Navigation is attempted with
`wait_until='networkidle', timeout=15000`, retried once with
`wait_until='domcontentloaded', timeout=10000`; a second failure records a
single render-phase error and returns the existing results unchanged. -/
def js_scrape (env : UrlEnv) (url : Str) (existing_metadata : Option MetaData)
    (existing_sections : Option (List Section)) (run : BrowserRun) :
    MetaData × List Section × List ErrorItem × Interactions :=
  let interactions : Interactions := ⟨[], 0, [url]⟩
  let metadata := existing_metadata.getD emptyMetaData
  let sections := existing_sections.getD []
  match run.launch with
  | .error e =>
    (metadata, sections, [⟨browserErrorMessage e, "render".toList⟩], interactions)
  | .ok _ =>
    match run.navigate ("networkidle".toList) 15000 with
    | .ok _ => jsAfterNav env url existing_metadata metadata sections interactions run
    | .error _ =>
      match run.navigate ("domcontentloaded".toList) 10000 with
      | .ok _ => jsAfterNav env url existing_metadata metadata sections interactions run
      | .error e2 =>
        (metadata, sections, [⟨navigationFailedMessage e2, "render".toList⟩],
         interactions)

/-! Concrete sample inputs used by witnesses and counterexamples. -/

/-- A concrete URL environment: plain concatenation joining and a fixed
scheme. -/
def env0 : UrlEnv := ⟨fun base rel => base ++ rel, fun _ => "https".toList⟩

def url0 : Str := "u".toList

def emptyContent : SectionContent := ⟨[], [], [], [], [], []⟩

def emptyElement : Element := ⟨[], [], [], [], [], [], [], [], [], [], [], []⟩

/-- A document with no landmark elements and an empty body: the primary
scan yields nothing and the body fallback fires. -/
def bodyOnlyTree : Tree :=
  { headerEls := [], navEls := [], mainEls := [], sectionEls := [],
    articleEls := [], asideEls := [], footerEls := [],
    body := some { emptyElement with tag := "body".toList },
    titleText := none, ogTitle := none, descContent := none, langAttr := none,
    canonicalHref := none }

/-- A section value carrying only an id, a type and a content text. -/
def mkTextSection (idS tyS textS : Str) : Section :=
  ⟨idS, tyS, [], [], ⟨[], textS, [], [], [], []⟩, [], false⟩

def secStatic0 : Section :=
  mkTextSection ("section-0".toList) ("section".toList) ("short".toList)

def secRendered0 : Section :=
  mkTextSection ("section-0".toList) ("section".toList)
    ("much longer extracted text".toList)

def secFaq0 : Section :=
  mkTextSection ("faq-0".toList) ("faq".toList) ("answer".toList)

/-- A nav landmark with plain text content. -/
def navElement : Element :=
  { emptyElement with tag := "nav".toList, fullText := "hello world".toList }

/-- A tree whose only landmark is `navElement`. -/
def navOnlyTree : Tree := { bodyOnlyTree with navEls := [navElement] }

/-- A browser run whose navigation always fails. -/
def run0 : BrowserRun :=
  { launch := .ok (), navigate := fun _ _ => .error ("net::ERR_TIMED_OUT".toList),
    tabClicks := [], tabErrors := [], loadMoreClicks := [], loadMoreErrors := [],
    scrollCount := 0, scrollErrors := [], pagesVisited := [],
    parseRendered := .error [] }

/-- A browser run that navigates fine but records one tab-stage error. -/
def runTabErr : BrowserRun :=
  { run0 with navigate := fun _ _ => .ok (), tabErrors := ["boom".toList] }

/-- The single section extracted from `navOnlyTree`. -/
def navSection : Section :=
  ⟨"nav-0".toList, "nav".toList, "hello world".toList, url0,
   ⟨[], "hello world".toList, [], [], [], []⟩, [], false⟩

/-!  Theorems. -/

/-- The rawHtml truncation template never exceeds 1003 characters. -/
theorem rawHtml_template_length (s : Str) :
    (if 1000 < s.length then s.take 1000 ++ ("...".toList) else s).length ≤ 1003 := by
  by_cases h : 1000 < s.length
  · rw [if_pos h]
    simp only [List.length_append, List.length_take]
    have h3 : ("...".toList).length = 3 := rfl
    omega
  · rw [if_neg h]
    omega

/-- Every section produced by the primary scan stores the rawHtml and
truncated flag computed from some scanned element's serialized markup. -/
theorem scan_rawHtml_spec (env : UrlEnv) (url : Str) :
    ∀ (elems : List Element) (counts : Str → Nat) (sec : Section),
      sec ∈ scanSections env url counts elems →
      ∃ e, e ∈ elems ∧ sec.truncated = decide (1000 < e.html.length) ∧
        sec.rawHtml = (if 1000 < e.html.length then
          e.html.take 1000 ++ ("...".toList) else e.html) := by
  intro elems
  induction elems with
  | nil => intro counts sec h; simp [scanSections] at h
  | cons element rest ih =>
    intro counts sec h
    simp only [scanSections] at h
    split at h
    · obtain ⟨e, he, h1, h2⟩ := ih _ sec h
      exact ⟨e, List.mem_cons_of_mem _ he, h1, h2⟩
    · rcases List.mem_cons.mp h with hh | ht
      · subst hh
        exact ⟨element, List.mem_cons_self _ _, rfl, rfl⟩
      · obtain ⟨e, he, h1, h2⟩ := ih _ sec ht
        exact ⟨e, List.mem_cons_of_mem _ he, h1, h2⟩

/-- C4: every extracted section's rawHtml is at most 1003 characters, and
its truncated flag is set iff the originating element's serialized markup
exceeded 1000 characters, in which case rawHtml is the first 1000
characters followed by the ellipsis marker. -/
theorem c4_rawhtml_truncation (env : UrlEnv) (tree : Tree) (url : Str)
    (sec : Section) (h : sec ∈ extract_sections env tree url) :
    sec.rawHtml.length ≤ 1003 ∧
    ∃ e, (e ∈ landmarkElements tree ∨ tree.body = some e) ∧
      (sec.truncated = true ↔ 1000 < e.html.length) ∧
      sec.rawHtml = (if 1000 < e.html.length then
        e.html.take 1000 ++ ("...".toList) else e.html) := by
  have main : ∃ e, (e ∈ landmarkElements tree ∨ tree.body = some e) ∧
      sec.truncated = decide (1000 < e.html.length) ∧
      sec.rawHtml = (if 1000 < e.html.length then
        e.html.take 1000 ++ ("...".toList) else e.html) := by
    simp only [extract_sections] at h
    split at h
    · cases hb : tree.body with
      | none => rw [hb] at h; simp at h
      | some body =>
        rw [hb] at h
        rcases List.mem_singleton.mp h with hh
        subst hh
        exact ⟨body, Or.inr rfl, rfl, rfl⟩
    · obtain ⟨e, he, h1, h2⟩ := scan_rawHtml_spec env url _ _ sec h
      exact ⟨e, Or.inl he, h1, h2⟩
  obtain ⟨e, he, h1, h2⟩ := main
  refine ⟨?_, e, he, ?_, h2⟩
  · rw [h2]; exact rawHtml_template_length _
  · rw [h1]; simp

/-- Witness for C4 at the concrete nav-only document. -/
theorem c4_rawhtml_truncation_witness :
    navSection.rawHtml.length ≤ 1003 ∧
    ∃ e, (e ∈ landmarkElements navOnlyTree ∨ navOnlyTree.body = some e) ∧
      (navSection.truncated = true ↔ 1000 < e.html.length) ∧
      navSection.rawHtml = (if 1000 < e.html.length then
        e.html.take 1000 ++ ("...".toList) else e.html) :=
  c4_rawhtml_truncation env0 navOnlyTree url0 navSection (by decide)

/-- C5: the primary landmark scan skips every element whose extracted
content has no text, no headings and no links — every section it emits has
some of the three — while the whole-body fallback is exempt and emits an
empty-content section for an empty body. -/
theorem c5_emptiness_filter :
    (∀ (env : UrlEnv) (url : Str) (counts : Str → Nat) (element : Element)
        (rest : List Element),
        (extract_section_content env element url).text = [] ∧
          (extract_section_content env element url).headings = [] ∧
          (extract_section_content env element url).links = [] →
        scanSections env url counts (element :: rest)
          = scanSections env url counts rest)
    ∧ (∀ (env : UrlEnv) (url : Str) (counts : Str → Nat) (elems : List Element)
        (sec : Section), sec ∈ scanSections env url counts elems →
        (sec.content.text ≠ [] ∨ sec.content.headings ≠ [] ∨ sec.content.links ≠ []))
    ∧ ((extract_sections env0 bodyOnlyTree url0).map
        (fun sec => (sec.content.text, sec.content.headings, sec.content.links))
        = [([], [], [])]) := by
  refine ⟨?_, ?_, by decide⟩
  · intro env url counts element rest h
    simp only [scanSections]
    rw [if_pos h]
  · intro env url counts elems
    induction elems generalizing counts with
    | nil => intro sec h; simp [scanSections] at h
    | cons element rest ih =>
      intro sec h
      simp only [scanSections] at h
      split at h
      · exact ih _ sec h
      · rcases List.mem_cons.mp h with hh | ht
        · subst hh
          rename_i hcond
          tauto
        · exact ih _ sec ht

/-- Witness for C5 at concrete inputs: the skip equation on an empty
element, and the nonemptiness of the section extracted from the nav-only
document. -/
theorem c5_emptiness_filter_witness :
    (scanSections env0 url0 (fun _ => 0) (emptyElement :: [navElement])
      = scanSections env0 url0 (fun _ => 0) [navElement])
    ∧ (navSection.content.text ≠ [] ∨ navSection.content.headings ≠ []
        ∨ navSection.content.links ≠ []) :=
  ⟨c5_emptiness_filter.1 env0 url0 (fun _ => 0) emptyElement [navElement]
      (by decide),
   c5_emptiness_filter.2.1 env0 url0 (fun _ => 0) [navElement] navSection
      (by decide)⟩

/-- C7: section-type classification starts from the tag base mapping and is
overridden by scanning the lowercased class+id attribute string against the
keyword groups in priority order, first matching group winning; in
particular a `<section class="pricing-table">` classifies as "pricing". -/
theorem c7_classification_priority :
    (determine_section_type
        { emptyElement with
          tag := "section".toList,
          classAttr := "pricing-table".toList } emptyContent = "pricing".toList)
    ∧ (∀ e c, containsAny (combinedAttrs e) heroKeywords = true →
        determine_section_type e c = "hero".toList)
    ∧ (∀ e c, containsAny (combinedAttrs e) heroKeywords = false →
        containsAny (combinedAttrs e) navKeywords = true →
        determine_section_type e c = "nav".toList)
    ∧ (∀ e c, containsAny (combinedAttrs e) heroKeywords = false →
        containsAny (combinedAttrs e) navKeywords = false →
        containsAny (combinedAttrs e) footerKeywords = true →
        determine_section_type e c = "footer".toList)
    ∧ (∀ e c, containsAny (combinedAttrs e) heroKeywords = false →
        containsAny (combinedAttrs e) navKeywords = false →
        containsAny (combinedAttrs e) footerKeywords = false →
        containsAny (combinedAttrs e) faqKeywords = true →
        determine_section_type e c = "faq".toList)
    ∧ (∀ e c, containsAny (combinedAttrs e) heroKeywords = false →
        containsAny (combinedAttrs e) navKeywords = false →
        containsAny (combinedAttrs e) footerKeywords = false →
        containsAny (combinedAttrs e) faqKeywords = false →
        containsAny (combinedAttrs e) pricingKeywords = true →
        determine_section_type e c = "pricing".toList)
    ∧ (∀ e c, containsAny (combinedAttrs e) heroKeywords = false →
        containsAny (combinedAttrs e) navKeywords = false →
        containsAny (combinedAttrs e) footerKeywords = false →
        containsAny (combinedAttrs e) faqKeywords = false →
        containsAny (combinedAttrs e) pricingKeywords = false →
        containsAny (combinedAttrs e) gridKeywords = true →
        determine_section_type e c = "grid".toList)
    ∧ (∀ e c, containsAny (combinedAttrs e) heroKeywords = false →
        containsAny (combinedAttrs e) navKeywords = false →
        containsAny (combinedAttrs e) footerKeywords = false →
        containsAny (combinedAttrs e) faqKeywords = false →
        containsAny (combinedAttrs e) pricingKeywords = false →
        containsAny (combinedAttrs e) gridKeywords = false →
        containsAny (combinedAttrs e) listKeywords = true →
        determine_section_type e c = "list".toList)
    ∧ (∀ e c, containsAny (combinedAttrs e) heroKeywords = false →
        containsAny (combinedAttrs e) navKeywords = false →
        containsAny (combinedAttrs e) footerKeywords = false →
        containsAny (combinedAttrs e) faqKeywords = false →
        containsAny (combinedAttrs e) pricingKeywords = false →
        containsAny (combinedAttrs e) gridKeywords = false →
        containsAny (combinedAttrs e) listKeywords = false →
        determine_section_type e c
          = (SECTION_TYPE_MAP.lookup (lowerStr e.tag)).getD ("unknown".toList)) := by
  refine ⟨by decide, ?_, ?_, ?_, ?_, ?_, ?_, ?_, ?_⟩
  · intro e c h1
    simp [determine_section_type, h1]
  · intro e c h1 h2
    simp [determine_section_type, h1, h2]
  · intro e c h1 h2 h3
    simp [determine_section_type, h1, h2, h3]
  · intro e c h1 h2 h3 h4
    simp [determine_section_type, h1, h2, h3, h4]
  · intro e c h1 h2 h3 h4 h5
    simp [determine_section_type, h1, h2, h3, h4, h5]
  · intro e c h1 h2 h3 h4 h5 h6
    simp [determine_section_type, h1, h2, h3, h4, h5, h6]
  · intro e c h1 h2 h3 h4 h5 h6 h7
    simp [determine_section_type, h1, h2, h3, h4, h5, h6, h7]
  · intro e c h1 h2 h3 h4 h5 h6 h7
    simp [determine_section_type, h1, h2, h3, h4, h5, h6, h7]

/-- Witness for C7: each keyword group and the base-mapping fallback
exercised at a concrete element. -/
theorem c7_classification_priority_witness :
    (determine_section_type { emptyElement with classAttr := "hero".toList }
        emptyContent = "hero".toList)
    ∧ (determine_section_type { emptyElement with classAttr := "menu".toList }
        emptyContent = "nav".toList)
    ∧ (determine_section_type { emptyElement with classAttr := "foot".toList }
        emptyContent = "footer".toList)
    ∧ (determine_section_type { emptyElement with classAttr := "faq".toList }
        emptyContent = "faq".toList)
    ∧ (determine_section_type { emptyElement with classAttr := "plan".toList }
        emptyContent = "pricing".toList)
    ∧ (determine_section_type { emptyElement with classAttr := "gallery".toList }
        emptyContent = "grid".toList)
    ∧ (determine_section_type { emptyElement with classAttr := "items".toList }
        emptyContent = "list".toList)
    ∧ (determine_section_type { emptyElement with tag := "article".toList }
        emptyContent
        = (SECTION_TYPE_MAP.lookup
            (lowerStr (Element.tag { emptyElement with tag := "article".toList }))).getD
            ("unknown".toList)) :=
  ⟨c7_classification_priority.2.1 _ _ (by decide),
   c7_classification_priority.2.2.1 _ _ (by decide) (by decide),
   c7_classification_priority.2.2.2.1 _ _ (by decide) (by decide) (by decide),
   c7_classification_priority.2.2.2.2.1 _ _ (by decide) (by decide) (by decide)
     (by decide),
   c7_classification_priority.2.2.2.2.2.1 _ _ (by decide) (by decide) (by decide)
     (by decide) (by decide),
   c7_classification_priority.2.2.2.2.2.2.1 _ _ (by decide) (by decide) (by decide)
     (by decide) (by decide) (by decide),
   c7_classification_priority.2.2.2.2.2.2.2.1 _ _ (by decide) (by decide)
     (by decide) (by decide) (by decide) (by decide) (by decide),
   c7_classification_priority.2.2.2.2.2.2.2.2 _ _ (by decide) (by decide)
     (by decide) (by decide) (by decide) (by decide) (by decide)⟩

/-- Id assignment along the primary scan: a section preceded by `pre`
sections in the scan result has the ordinal `counts type + countP pre`. -/
theorem scan_id_of_append (env : UrlEnv) (url : Str) :
    ∀ (elems : List Element) (counts : Str → Nat) (pre post : List Section)
      (sec : Section),
      scanSections env url counts elems = pre ++ sec :: post →
      sec.id = sec.type ++ ('-' :: natToStr (counts sec.type +
        pre.countP (fun s => decide (s.type = sec.type)))) := by
  intro elems
  induction elems with
  | nil =>
    intro counts pre post sec h
    rw [scanSections] at h
    exact absurd h.symm (List.append_ne_nil_of_right_ne_nil _ (by simp))
  | cons element rest ih =>
    intro counts pre post sec h
    simp only [scanSections] at h
    split at h
    · exact ih counts pre post sec h
    · cases pre with
      | nil =>
        simp only [List.nil_append] at h
        obtain ⟨hh, -⟩ := List.cons.injEq .. ▸ h
        subst hh
        simp
      | cons p pre' =>
        simp only [List.cons_append] at h
        obtain ⟨hp, htail⟩ := List.cons.injEq .. ▸ h
        have hid := ih _ pre' post sec htail
        rw [hid]
        have harg : (if sec.type = determine_section_type element
              (extract_section_content env element url) then
            counts (determine_section_type element
              (extract_section_content env element url)) + 1
          else counts sec.type) +
            pre'.countP (fun s => decide (s.type = sec.type))
          = counts sec.type +
            (p :: pre').countP (fun s => decide (s.type = sec.type)) := by
          rw [List.countP_cons]
          have hpty : p.type = determine_section_type element
              (extract_section_content env element url) := by
            rw [← hp]
          by_cases hty : sec.type = determine_section_type element
              (extract_section_content env element url)
          · rw [if_pos hty, hpty, ← hty]
            simp
            omega
          · rw [if_neg hty, hpty]
            have : (decide (determine_section_type element
                (extract_section_content env element url) = sec.type)) = false := by
              simp
              exact fun hc => hty hc.symm
            rw [this]
            simp
        rw [harg]

/-- C6 (amended to the primary landmark scan): each section emitted by the
primary scan has id `{type}-{n}` where n counts the earlier sections of the
same classified type in scan order, the per-type counter starting at 0. -/
theorem c6_primary_scan_ids (env : UrlEnv) (url : Str) (elems : List Element)
    (pre post : List Section) (sec : Section)
    (h : scanSections env url (fun _ => 0) elems = pre ++ sec :: post) :
    sec.id = sec.type ++ ('-' :: natToStr
      (pre.countP (fun s => decide (s.type = sec.type)))) := by
  have := scan_id_of_append env url elems (fun _ => 0) pre post sec h
  simpa using this

/-- Witness for C6 at the concrete nav-only element list. -/
theorem c6_primary_scan_ids_witness :
    navSection.id = navSection.type ++ ('-' :: natToStr
      (List.countP (fun s => decide (s.type = navSection.type))
        ([] : List Section))) :=
  c6_primary_scan_ids env0 url0 [navElement] [] [] navSection (by decide)

/-- Counterexample to C6 as stated: the whole-body fallback emits a section
whose classified type is "unknown" but whose id is "body-0", not
"unknown-0" — so not every emitted section has id `{type}-{n}`. -/
theorem c6_fallback_id_counterexample :
    ((extract_sections env0 bodyOnlyTree url0).map (fun sec => (sec.id, sec.type))
      = [("body-0".toList, "unknown".toList)])
    ∧ ("body-0".toList ≠ "unknown".toList ++ ('-' :: natToStr 0)) := by
  decide

/-- replaceFirst leaves every element with a different id in place. -/
theorem mem_replaceFirst_of_id_ne {x : Section} :
    ∀ (l : List Section) (sec : Section), x ∈ l → x.id ≠ sec.id →
      x ∈ replaceFirst l sec := by
  intro l
  induction l with
  | nil => intro sec hx; exact absurd hx (List.not_mem_nil x)
  | cons hd t ih =>
    intro sec hx hne
    rw [replaceFirst]
    by_cases hh : hd.id = sec.id
    · rw [if_pos hh]
      rcases List.mem_cons.mp hx with hxeq | hxt
      · exact absurd (hxeq ▸ hh) hne
      · exact List.mem_cons_of_mem _ hxt
    · rw [if_neg hh]
      rcases List.mem_cons.mp hx with hxeq | hxt
      · exact hxeq ▸ List.mem_cons_self _ _
      · exact List.mem_cons_of_mem _ (ih sec hxt hne)

/-- Every element of a replaceFirst result came from the list or is the
inserted section. -/
theorem mem_of_mem_replaceFirst {x : Section} :
    ∀ (l : List Section) (sec : Section), x ∈ replaceFirst l sec →
      x ∈ l ∨ x = sec := by
  intro l
  induction l with
  | nil => intro sec hx; rw [replaceFirst] at hx; exact absurd hx (List.not_mem_nil x)
  | cons hd t ih =>
    intro sec hx
    rw [replaceFirst] at hx
    split at hx
    · rcases List.mem_cons.mp hx with hxeq | hxt
      · split at hxeq
        · exact Or.inr hxeq
        · exact Or.inl (hxeq ▸ List.mem_cons_self _ _)
      · exact Or.inl (List.mem_cons_of_mem _ hxt)
    · rcases List.mem_cons.mp hx with hxeq | hxt
      · exact Or.inl (hxeq ▸ List.mem_cons_self _ _)
      · rcases ih sec hxt with h1 | h1
        · exact Or.inl (List.mem_cons_of_mem _ h1)
        · exact Or.inr h1

/-- When the list holds exactly one section with the incoming id, the
replacement loop puts the longer of the two variants at its place. -/
theorem winner_mem_replaceFirst :
    ∀ (l : List Section) (sec s : Section), s ∈ l →
      (∀ x ∈ l, x.id = sec.id → x = s) → s.id = sec.id →
      (if s.content.text.length < sec.content.text.length then sec else s)
        ∈ replaceFirst l sec := by
  intro l
  induction l with
  | nil => intro sec s hs; exact absurd hs (List.not_mem_nil s)
  | cons hd t ih =>
    intro sec s hs huniq hid
    rw [replaceFirst]
    by_cases hh : hd.id = sec.id
    · rw [if_pos hh]
      have heq : hd = s := huniq hd (List.mem_cons_self _ _) hh
      subst heq
      exact List.mem_cons_self _ _
    · rw [if_neg hh]
      have hs' : s ∈ t := by
        rcases List.mem_cons.mp hs with h1 | h1
        · exact absurd (h1 ▸ hid) hh
        · exact h1
      exact List.mem_cons_of_mem _
        (ih sec s hs' (fun x hx hxe => huniq x (List.mem_cons_of_mem _ hx) hxe) hid)

/-- A member whose id matches no remaining rendered section survives the
rest of the merge fold. -/
theorem foldl_mergeStep_keeps (ids : List Str) :
    ∀ (l acc : List Section) (x : Section), x ∈ acc →
      (∀ sec ∈ l, sec.id ≠ x.id) → x ∈ l.foldl (mergeStep ids) acc := by
  intro l
  induction l with
  | nil => intro acc x hx _; simpa using hx
  | cons sec rest ih =>
    intro acc x hx hne
    rw [List.foldl_cons]
    apply ih _ x _ (fun s hs => hne s (List.mem_cons_of_mem _ hs))
    rw [mergeStep]
    split
    · exact List.mem_append_left _ hx
    · exact mem_replaceFirst_of_id_ne acc sec hx
        (fun hc => hne sec (List.mem_cons_self _ _) hc.symm)

/-- Nodup ids make the section with a given id unique in a list. -/
theorem id_unique_of_nodup :
    ∀ (l : List Section), (l.map Section.id).Nodup →
      ∀ s ∈ l, ∀ x ∈ l, x.id = s.id → x = s := by
  intro l
  induction l with
  | nil => intro _ s hs; exact absurd hs (List.not_mem_nil s)
  | cons hd t ih =>
    intro hnd s hs x hx hxs
    simp only [List.map_cons, List.nodup_cons] at hnd
    obtain ⟨hnotin, hnd'⟩ := hnd
    rcases List.mem_cons.mp hs with hseq | hst
    · rcases List.mem_cons.mp hx with hxeq | hxt
      · rw [hxeq, hseq]
      · exact absurd (List.mem_map.mpr ⟨x, hxt, by rw [hxs, hseq]⟩) hnotin
    · rcases List.mem_cons.mp hx with hxeq | hxt
      · exact absurd (List.mem_map.mpr ⟨s, hst, by rw [← hxs, hxeq]⟩) hnotin
      · exact ih hnd' s hst x hxt hxs

/-- A rendered section whose id is not among the static ids is kept by the
merge fold. -/
theorem merge_append_aux (ids : List Str) :
    ∀ (l acc : List Section) (r : Section), r ∈ l → r.id ∉ ids →
      (l.map Section.id).Nodup → r ∈ l.foldl (mergeStep ids) acc := by
  intro l
  induction l with
  | nil => intro acc r hr; exact absurd hr (List.not_mem_nil r)
  | cons sec rest ih =>
    intro acc r hr hnotin hnd
    simp only [List.map_cons, List.nodup_cons] at hnd
    obtain ⟨hsecnotin, hnd'⟩ := hnd
    rw [List.foldl_cons]
    rcases List.mem_cons.mp hr with hreq | hrt
    · subst hreq
      have hstep : mergeStep ids acc r = acc ++ [r] := by
        rw [mergeStep, if_pos hnotin]
      rw [hstep]
      apply foldl_mergeStep_keeps ids rest _ r
        (List.mem_append_right _ (List.mem_singleton_self r))
      intro sec' hsec' hceq
      exact hsecnotin (List.mem_map.mpr ⟨sec', hsec', hceq⟩)
    · exact ih _ r hrt hnotin hnd'

/-- A rendered section whose id matches the unique static section s leaves
the longer of the two variants in the merge fold's result. -/
theorem merge_replace_aux (ids : List Str) (rid : Str) (s : Section) :
    ∀ (l acc : List Section), s ∈ acc → (∀ x ∈ acc, x.id = rid → x = s) →
      s.id = rid → (l.map Section.id).Nodup → rid ∈ ids →
      ∀ r ∈ l, r.id = rid →
      (if s.content.text.length < r.content.text.length then r else s)
        ∈ l.foldl (mergeStep ids) acc := by
  intro l
  induction l with
  | nil => intro acc _ _ _ _ _ r hr; exact absurd hr (List.not_mem_nil r)
  | cons sec rest ih =>
    intro acc hsacc huniq hsid hnd hrid r hr hrideq
    simp only [List.map_cons, List.nodup_cons] at hnd
    obtain ⟨hsecnotin, hnd'⟩ := hnd
    rw [List.foldl_cons]
    rcases List.mem_cons.mp hr with hreq | hrt
    · subst hreq
      have hstep : mergeStep ids acc r = replaceFirst acc r := by
        rw [mergeStep, if_neg]
        rw [not_not, hrideq]
        exact hrid
      rw [hstep]
      have hw := winner_mem_replaceFirst acc r s hsacc
        (fun x hx hxe => huniq x hx (by rw [← hrideq]; exact hxe))
        (hsid.trans hrideq.symm)
      apply foldl_mergeStep_keeps ids rest _ _ hw
      intro sec' hsec' hceq
      have hwid : (if s.content.text.length < r.content.text.length then r
          else s).id = rid := by
        split
        · exact hrideq
        · exact hsid
      rw [hwid] at hceq
      rw [← hrideq] at hceq
      exact hsecnotin (List.mem_map.mpr ⟨sec', hsec', hceq⟩)
    · have hsecne : sec.id ≠ rid := by
        intro hce
        exact hsecnotin (hce ▸ List.mem_map.mpr ⟨r, hrt, hrideq⟩)
      apply ih (mergeStep ids acc sec) ?_ ?_ hsid hnd' hrid r hrt hrideq
      · rw [mergeStep]
        split
        · exact List.mem_append_left _ hsacc
        · exact mem_replaceFirst_of_id_ne acc sec hsacc
            (by rw [hsid]; exact fun hc => hsecne hc.symm)
      · intro x hx hxid
        rw [mergeStep] at hx
        split at hx
        · rcases List.mem_append.mp hx with h1 | h1
          · exact huniq x h1 hxid
          · have hxe : x = sec := List.mem_singleton.mp h1
            exact absurd (hxe ▸ hxid) hsecne
        · rcases mem_of_mem_replaceFirst acc sec hx with h1 | h1
          · exact huniq x h1 hxid
          · exact absurd (h1 ▸ hxid) hsecne

/-- C2: in the render-pass merge, a rendered section with a fresh id is
kept (appended), and a rendered section whose id matches a static one
leaves whichever variant has the strictly longer text, ties keeping the
static entry. -/
theorem c2_merge_precedence (staticSections js_sections : List Section)
    (r : Section) (hr : r ∈ js_sections)
    (hnd_js : (js_sections.map Section.id).Nodup)
    (hnd_st : (staticSections.map Section.id).Nodup) :
    (r.id ∉ staticSections.map Section.id →
      r ∈ mergeSections staticSections js_sections)
    ∧ (∀ s ∈ staticSections, s.id = r.id →
      (if s.content.text.length < r.content.text.length then r else s)
        ∈ mergeSections staticSections js_sections) := by
  constructor
  · intro hnot
    exact merge_append_aux _ js_sections staticSections r hr hnot hnd_js
  · intro s hs hsid
    have huniq : ∀ x ∈ staticSections, x.id = r.id → x = s := fun x hx hxid =>
      id_unique_of_nodup staticSections hnd_st s hs x hx (hxid.trans hsid.symm)
    exact merge_replace_aux _ r.id s js_sections staticSections hs huniq hsid
      hnd_js (List.mem_map.mpr ⟨s, hs, hsid⟩) r hr rfl

/-- Witness for C2: the rendered longer section-0 wins over the static
short one, and the fresh faq-0 rendered section is kept. -/
theorem c2_merge_precedence_witness :
    secRendered0 ∈ mergeSections [secStatic0] [secRendered0]
    ∧ secFaq0 ∈ mergeSections [secStatic0] [secFaq0] := by
  constructor
  · have h := (c2_merge_precedence [secStatic0] [secRendered0] secRendered0
      (by decide) (by decide) (by decide)).2 secStatic0 (by decide) (by decide)
    have he : (if secStatic0.content.text.length
        < secRendered0.content.text.length then secRendered0 else secStatic0)
        = secRendered0 := by decide
    rwa [he] at h
  · exact (c2_merge_precedence [secStatic0] [secFaq0] secFaq0 (by decide)
      (by decide) (by decide)).1 (by decide)

/-- C8: if both the primary navigation (networkidle, 15s) and the retry
(domcontentloaded, 10s) fail, js_scrape records exactly one render-phase
error and returns the existing metadata and sections unchanged. -/
theorem c8_navigation_double_failure (env : UrlEnv) (url : Str)
    (existing_metadata : Option MetaData)
    (existing_sections : Option (List Section)) (run : BrowserRun) (e1 e2 : Str)
    (hl : run.launch = .ok ())
    (h1 : run.navigate ("networkidle".toList) 15000 = .error e1)
    (h2 : run.navigate ("domcontentloaded".toList) 10000 = .error e2) :
    js_scrape env url existing_metadata existing_sections run
      = (existing_metadata.getD emptyMetaData, existing_sections.getD [],
         [⟨navigationFailedMessage e2, "render".toList⟩], ⟨[], 0, [url]⟩) := by
  simp only [js_scrape, hl]
  rw [h1, h2]

/-- Witness for C8 at a concrete always-failing browser run. -/
theorem c8_navigation_double_failure_witness :
    js_scrape env0 url0 none none run0
      = (emptyMetaData, [],
         [⟨navigationFailedMessage ("net::ERR_TIMED_OUT".toList), "render".toList⟩],
         ⟨[], 0, [url0]⟩) :=
  c8_navigation_double_failure env0 url0 none none run0 _ _ rfl rfl rfl

/-- C9: a fetch failure (any branch) or a parse failure makes static_scrape
return empty metadata and sections with one phase-tagged error and the
escalation flag set, so the render pass is still attempted. -/
theorem c9_static_failure_escalates (env : UrlEnv)
    (parseDoc : Str → Except Str Tree) (url : Str) :
    (∀ msg : Str,
      static_scrape env parseDoc url (.otherError msg)
          = ⟨emptyMetaData, [], [⟨msg, "fetch".toList⟩], [], true⟩
        ∧ renderAttempted
            (static_scrape env parseDoc url (.otherError msg)).needsJs
            (static_scrape env parseDoc url (.otherError msg)).sections = true)
    ∧ (static_scrape env parseDoc url .timeout
          = ⟨emptyMetaData, [], [⟨"Request timeout".toList, "fetch".toList⟩], [], true⟩
        ∧ renderAttempted (static_scrape env parseDoc url .timeout).needsJs
            (static_scrape env parseDoc url .timeout).sections = true)
    ∧ (∀ code : Nat,
      static_scrape env parseDoc url (.statusError code)
          = ⟨emptyMetaData, [],
             [⟨"HTTP ".toList ++ natToStr code, "fetch".toList⟩], [], true⟩
        ∧ renderAttempted
            (static_scrape env parseDoc url (.statusError code)).needsJs
            (static_scrape env parseDoc url (.statusError code)).sections = true)
    ∧ (∀ (html e : Str), parseDoc html = .error e →
      static_scrape env parseDoc url (.success html)
          = ⟨emptyMetaData, [], [⟨e, "parse".toList⟩], html, true⟩
        ∧ renderAttempted
            (static_scrape env parseDoc url (.success html)).needsJs
            (static_scrape env parseDoc url (.success html)).sections = true) := by
  refine ⟨fun msg => ⟨rfl, rfl⟩, ⟨rfl, rfl⟩, fun code => ⟨rfl, rfl⟩, ?_⟩
  intro html e he
  constructor
  · simp [static_scrape, he]
  · simp [static_scrape, he, renderAttempted]

/-- Witness for C9 at a concrete failing parse. -/
theorem c9_static_failure_escalates_witness :
    static_scrape env0 (fun _ => Except.error ("boom".toList)) url0
        (.success ("<p>hi</p>".toList))
      = ⟨emptyMetaData, [], [⟨"boom".toList, "parse".toList⟩],
         "<p>hi</p>".toList, true⟩
    ∧ renderAttempted
        (static_scrape env0 (fun _ => Except.error ("boom".toList)) url0
          (.success ("<p>hi</p>".toList))).needsJs
        (static_scrape env0 (fun _ => Except.error ("boom".toList)) url0
          (.success ("<p>hi</p>".toList))).sections = true :=
  (c9_static_failure_escalates env0 (fun _ => Except.error ("boom".toList))
    url0).2.2.2 ("<p>hi</p>".toList) ("boom".toList) rfl

/-- C1: the static pass sets needsRender exactly when the fetch failed, the
visible body text is shorter than 500 characters, no sections were
extracted, or every extracted section has empty text. -/
theorem c1_escalation_iff (env : UrlEnv) (parseDoc : Str → Except Str Tree)
    (url : Str) (fetchResult : FetchResult) :
    (static_scrape env parseDoc url fetchResult).needsJs = true ↔
      (fetchFailed fetchResult = true
       ∨ (∃ html tree, fetchResult = FetchResult.success html
            ∧ parseDoc html = Except.ok tree
            ∧ get_text_content_length tree < 500)
       ∨ (static_scrape env parseDoc url fetchResult).sections = []
       ∨ ∀ sec ∈ (static_scrape env parseDoc url fetchResult).sections,
           sec.content.text = []) := by
  cases fetchResult with
  | timeout => simp [static_scrape, fetchFailed]
  | statusError code => simp [static_scrape, fetchFailed]
  | otherError msg => simp [static_scrape, fetchFailed]
  | success html =>
    cases hp : parseDoc html with
    | error e => simp [static_scrape, fetchFailed, hp]
    | ok tree =>
      simp only [static_scrape, fetchFailed, hp, List.isEmpty_iff, List.all_eq_true]
      simp [hp]
      tauto

/-- C10: every link emitted by extract_section_content has non-empty text
(the filtered href standing in when the anchor text is empty) and an
absolute-resolved href. -/
theorem c10_link_items (env : UrlEnv) (element : Element) (base_url : Str)
    (link : LinkItem)
    (h : link ∈ (extract_section_content env element base_url).links) :
    link.text ≠ [] ∧ ∃ a, a ∈ element.anchors ∧ a.href ≠ []
      ∧ link.href = make_absolute_url env a.href base_url
      ∧ link.text = (if a.text = [] then a.href else a.text) := by
  simp only [extract_section_content] at h
  have h' := List.mem_of_mem_take h
  obtain ⟨a, ha, hfa⟩ := List.mem_filterMap.mp h'
  by_cases hc : a.href ≠ [] ∧ badHrefStart a.href = false
  · rw [if_pos hc] at hfa
    have hlink : link = ⟨if a.text = [] then a.href else a.text,
        make_absolute_url env a.href base_url⟩ := (Option.some.injEq .. ▸ hfa).symm
    subst hlink
    refine ⟨?_, a, ha, hc.1, rfl, rfl⟩
    by_cases ht : a.text = []
    · simpa [ht] using hc.1
    · simp [ht]
  · rw [if_neg hc] at hfa
    exact absurd hfa (by simp)

/-- Witness for C10 at a concrete anchor with empty text. -/
theorem c10_link_items_witness :
    (LinkItem.mk ("/x".toList) (make_absolute_url env0 ("/x".toList) url0)).text ≠ []
    ∧ ∃ a, a ∈ (Element.anchors
          { emptyElement with anchors := [⟨"/x".toList, []⟩] }) ∧ a.href ≠ []
      ∧ (LinkItem.mk ("/x".toList)
          (make_absolute_url env0 ("/x".toList) url0)).href
          = make_absolute_url env0 a.href url0
      ∧ (LinkItem.mk ("/x".toList)
          (make_absolute_url env0 ("/x".toList) url0)).text
          = (if a.text = [] then a.href else a.text) :=
  c10_link_items env0 { emptyElement with anchors := [⟨"/x".toList, []⟩] } url0
    ⟨"/x".toList, make_absolute_url env0 ("/x".toList) url0⟩ (by decide)

/-- Counterexample to C3 as stated: the static pass forwards generic fetch
exception messages untruncated, so no fixed constant bounds every error
message. -/
theorem c3_unbounded_static_messages :
    ¬ ∃ C : Nat, ∀ (env : UrlEnv) (parseDoc : Str → Except Str Tree) (url : Str)
        (fetchResult : FetchResult),
        ∀ err ∈ (static_scrape env parseDoc url fetchResult).errors,
          err.message.length ≤ C := by
  rintro ⟨C, h⟩
  have hm := h env0 (fun _ => Except.error []) url0
    (.otherError (List.replicate (C + 1) 'x'))
    ⟨List.replicate (C + 1) 'x', "fetch".toList⟩ (by simp [static_scrape])
  have hm' : (List.replicate (C + 1) 'x').length ≤ C := hm
  rw [List.length_replicate] at hm'
  omega

/-- A truncated message of the js pass is bounded by its prefix plus 50. -/
theorem message_length_le (p e : Str) :
    (p ++ e.take 50).length ≤ p.length + 50 := by
  rw [List.length_append]
  have := List.length_take_le 50 e
  omega

/-- All interaction-stage error messages are bounded by 69 characters. -/
theorem interactionErrors_bounded (run : BrowserRun) :
    ∀ err ∈ interactionErrors run, err.message.length ≤ 69 := by
  intro err herr
  simp only [interactionErrors, List.mem_append, List.mem_map] at herr
  rcases herr with (⟨e, -, he⟩ | ⟨e, -, he⟩) | ⟨e, -, he⟩ <;> rw [← he] <;>
    simp only [tabClickErrorMessage, loadMoreErrorMessage, scrollErrorMessage] <;>
    exact le_trans (message_length_le _ e) (by decide)

/-- All error messages produced after a successful navigation are bounded
by 69 characters. -/
theorem jsAfterNav_errors_bounded (env : UrlEnv) (url : Str)
    (em : Option MetaData) (md : MetaData) (secs : List Section)
    (inter : Interactions) (run : BrowserRun) :
    ∀ err ∈ (jsAfterNav env url em md secs inter run).2.2.1,
      err.message.length ≤ 69 := by
  intro err herr
  cases hp : run.parseRendered with
  | error e =>
    simp only [jsAfterNav, hp, List.mem_append] at herr
    rcases herr with h1 | h1
    · exact interactionErrors_bounded run err h1
    · have he : err = ⟨jsParseErrorMessage e, "parse".toList⟩ :=
        List.mem_singleton.mp h1
      rw [he]
      exact le_trans (message_length_le _ e) (by decide)
  | ok tree =>
    simp only [jsAfterNav, hp] at herr
    exact interactionErrors_bounded run err herr

/-- C3 (amended): every error message created in the render pass — browser,
navigation, interaction and rendered-parse errors — is bounded by 69
characters, and the static pass's timeout message is a fixed short string;
the bound does not extend to the static pass's generic exception
messages. -/
theorem c3_bounded_render_messages :
    (∀ (env : UrlEnv) (url : Str) (existing_metadata : Option MetaData)
        (existing_sections : Option (List Section)) (run : BrowserRun),
        ∀ err ∈ (js_scrape env url existing_metadata existing_sections run).2.2.1,
          err.message.length ≤ 69)
    ∧ (∀ (env : UrlEnv) (parseDoc : Str → Except Str Tree) (url : Str),
        ∀ err ∈ (static_scrape env parseDoc url .timeout).errors,
          err.message.length ≤ 69) := by
  constructor
  · intro env url em es run err herr
    cases hl : run.launch with
    | error e =>
      simp only [js_scrape, hl] at herr
      have he : err = ⟨browserErrorMessage e, "render".toList⟩ :=
        List.mem_singleton.mp herr
      rw [he]
      exact le_trans (message_length_le _ e) (by decide)
    | ok u =>
      cases hn1 : run.navigate ("networkidle".toList) 15000 with
      | ok v =>
        simp only [js_scrape, hl, hn1] at herr
        exact jsAfterNav_errors_bounded env url em _ _ _ run err herr
      | error e1 =>
        cases hn2 : run.navigate ("domcontentloaded".toList) 10000 with
        | ok v =>
          simp only [js_scrape, hl, hn1, hn2] at herr
          exact jsAfterNav_errors_bounded env url em _ _ _ run err herr
        | error e2 =>
          simp only [js_scrape, hl, hn1, hn2] at herr
          have he : err = ⟨navigationFailedMessage e2, "render".toList⟩ :=
            List.mem_singleton.mp herr
          rw [he]
          exact le_trans (message_length_le _ e2) (by decide)
  · intro env parseDoc url err herr
    have he : err = ⟨"Request timeout".toList, "fetch".toList⟩ :=
      List.mem_singleton.mp herr
    rw [he]
    decide

/-- Witness for C3's amended bound at a concrete interaction error and the
timeout message. -/
theorem c3_bounded_render_messages_witness :
    (ErrorItem.mk (tabClickErrorMessage ("boom".toList))
        ("interaction".toList)).message.length ≤ 69
    ∧ (ErrorItem.mk ("Request timeout".toList)
        ("fetch".toList)).message.length ≤ 69 :=
  ⟨c3_bounded_render_messages.1 env0 url0 none none runTabErr _ (by decide),
   c3_bounded_render_messages.2 env0 (fun _ => Except.error []) url0 _ (by decide)⟩

end Scraper
